import Mathlib

/-!
Verification of the `evnt` Event/Handler library (single header, classes
`Event<TArgs...>` and `Handler<TArgs...>`).

Shallow embedding.  C++ objects are identified by their storage location; we
model identities as natural numbers.  The whole object graph is a `State`:

* `m_subscribedTo h` — the vector `Handler::m_subscribedTo` of the handler
  living at identity `h` (a list of event identities);
* `m_handler e` — the vector `Event::m_handler` of the event living at
  identity `e` (a list of handler identities);
* `m_function h` — the `std::function` member `Handler::m_function`;
  `none` models the empty (default-constructed) `std::function`, `some r`
  a wrapped reaction identified by the token `r`.

`std::find` + `erase(it)` on a vector is exactly `List.erase` (remove the
first occurrence, no-op when absent), and `push_back` is `· ++ [x]`.
The member-function loops (`Handler::reset`, `Handler::swap`,
`Event::reset`, `Event::swap`) iterate over one object's vector and mutate
only the *other* side's map, so each loop is a fold over the iterated list
that rewrites one of the two maps; `eraseFold` and `pushFold` below are
those folds, generic in which map they act on.
-/

namespace evnt

/-- Pointwise update of an identity-indexed map (assignment through a
pointer at one storage location). -/
def updMap {α : Type} (f : Nat → α) (a : Nat) (v : α) : Nat → α :=
  fun x => if x = a then v else f x

/-- The whole object graph: every handler's `m_subscribedTo` and
`m_function`, every event's `m_handler`, indexed by object identity. -/
structure State where
  m_subscribedTo : Nat → List Nat
  m_handler : Nat → List Nat
  m_function : Nat → Option Nat

/-- State in which no object has been constructed yet: all vectors empty,
all functions empty. -/
def initState : State :=
  { m_subscribedTo := fun _ => []
    m_handler := fun _ => []
    m_function := fun _ => none }

/-- Loop `for (auto x : l) ...erase(b from map-at-x)`: successively erase
the first occurrence of `b` from the list stored at each key listed in `l`
(`Event::unsubscribeConstHandler` resp. `Handler::removeEvent` applied
along a vector, as in the `reset` and `swap` loops). -/
def eraseFold (f : Nat → List Nat) (b : Nat) (l : List Nat) : Nat → List Nat :=
  l.foldl (fun g x => updMap g x ((g x).erase b)) f

/-- Loop `for (auto x : l) ...push_back(b onto map-at-x)`: successively
append `b` to the list stored at each key listed in `l`
(`Event::subscribeConstHandler` resp. `Handler::addEvent` applied along a
vector, as in the re-subscribe halves of `swap`). -/
def pushFold (f : Nat → List Nat) (b : Nat) (l : List Nat) : Nat → List Nat :=
  l.foldl (fun g x => updMap g x (g x ++ [b])) f

/-- `Event::subscribeConstHandler` (line 268): `m_handler.push_back(handler)`. -/
def Event.subscribeConstHandler (s : State) (e h : Nat) : State :=
  { s with m_handler := updMap s.m_handler e (s.m_handler e ++ [h]) }

/-- `Event::unsubscribeConstHandler` (line 274): find the first occurrence
of `handler` in `m_handler`; if absent return, else erase it. -/
def Event.unsubscribeConstHandler (s : State) (e h : Nat) : State :=
  { s with m_handler := updMap s.m_handler e ((s.m_handler e).erase h) }

/-- `Handler::removeEvent` (line 175): erase the first occurrence of `e`
from `m_subscribedTo` if present. -/
def Handler.removeEvent (s : State) (h e : Nat) : State :=
  { s with m_subscribedTo := updMap s.m_subscribedTo h ((s.m_subscribedTo h).erase e) }

/-- `Handler::addEvent` (line 183): `m_subscribedTo.push_back(e)`. -/
def Handler.addEvent (s : State) (h e : Nat) : State :=
  { s with m_subscribedTo := updMap s.m_subscribedTo h (s.m_subscribedTo h ++ [e]) }

/-- `Event::subscribe(HandlerT*)` (line 217): `subscribeConstHandler(handler);
handler->addEvent(this);`. -/
def Event.subscribe (s : State) (e h : Nat) : State :=
  Handler.addEvent (Event.subscribeConstHandler s e h) h e

/-- `Event::unsubscribe` (line 224): find first occurrence of `handler` in
`m_handler`; if absent return; else `(*it)->removeEvent(this)` then erase
the found entry. -/
def Event.unsubscribe (s : State) (e h : Nat) : State :=
  if h ∈ s.m_handler e then
    Event.unsubscribeConstHandler (Handler.removeEvent s h e) e h
  else s

/-- `Handler::reset` (line 145): `for (auto e : m_subscribedTo)
e->unsubscribeConstHandler(this); m_subscribedTo.clear();`. -/
def Handler.reset (s : State) (h : Nat) : State :=
  { s with
    m_handler := eraseFold s.m_handler h (s.m_subscribedTo h)
    m_subscribedTo := updMap s.m_subscribedTo h [] }

/-- `Event::reset` (line 233): `for (auto h : m_handler)
h->removeEvent(this); m_handler.clear();`. -/
def Event.reset (s : State) (e : Nat) : State :=
  { s with
    m_subscribedTo := eraseFold s.m_subscribedTo e (s.m_handler e)
    m_handler := updMap s.m_handler e [] }

/-- `Handler::swap` (line 155): unsubscribe both handlers from their old
events (first occurrence each, via `unsubscribeConstHandler`), `std::swap`
the `m_subscribedTo` vectors and the `m_function` members, then re-push
both handlers onto their (new) events' `m_handler` vectors — first all of
`this`'s pushes, then all of `other`'s.  The two erase loops iterate the
pre-swap vectors; the two push loops iterate the post-swap vectors. -/
def Handler.swap (s : State) (h1 h2 : Nat) : State :=
  let f1 := eraseFold s.m_handler h1 (s.m_subscribedTo h1)
  let f2 := eraseFold f1 h2 (s.m_subscribedTo h2)
  let subs2 := updMap (updMap s.m_subscribedTo h1 (s.m_subscribedTo h2)) h2 (s.m_subscribedTo h1)
  let fn2 := updMap (updMap s.m_function h1 (s.m_function h2)) h2 (s.m_function h1)
  let f3 := pushFold f2 h1 (subs2 h1)
  let f4 := pushFold f3 h2 (subs2 h2)
  { m_subscribedTo := subs2, m_handler := f4, m_function := fn2 }

/-- `Event::swap` (line 241): symmetric to `Handler::swap`, with
`removeEvent`/`addEvent` acting on the handlers' `m_subscribedTo` vectors
(there is no function member to exchange on the event side). -/
def Event.swap (s : State) (e1 e2 : Nat) : State :=
  let g1 := eraseFold s.m_subscribedTo e1 (s.m_handler e1)
  let g2 := eraseFold g1 e2 (s.m_handler e2)
  let hs2 := updMap (updMap s.m_handler e1 (s.m_handler e2)) e2 (s.m_handler e1)
  let g3 := pushFold g2 e1 (hs2 e1)
  let g4 := pushFold g3 e2 (hs2 e2)
  { m_subscribedTo := g4, m_handler := hs2, m_function := s.m_function }

/-- `Handler::Handler(std::function)` (line 98) at fresh storage `h`: the
new object's `m_subscribedTo` is empty and `m_function` wraps `r`. -/
def Handler.ctor (s : State) (h r : Nat) : State :=
  { s with
    m_subscribedTo := updMap s.m_subscribedTo h []
    m_function := updMap s.m_function h (some r) }

/-- `Event::Event()` (defaulted, line 63) at fresh storage `e`: the new
object's `m_handler` is empty. -/
def Event.ctor (s : State) (e : Nat) : State :=
  { s with m_handler := updMap s.m_handler e [] }

/-- `Handler::Handler(Handler&&)` (line 126): the members are
default-initialized (empty vector, empty `std::function`), then
`swap(other)`. -/
def Handler.moveCtor (s : State) (dst src : Nat) : State :=
  Handler.swap
    { s with
      m_subscribedTo := updMap s.m_subscribedTo dst []
      m_function := updMap s.m_function dst none } dst src

/-- `Handler::operator=(Handler&&)` (line 132): `swap(other); return *this;`. -/
def Handler.moveAssign (s : State) (dst src : Nat) : State :=
  Handler.swap s dst src

/-- `Event::Event(Event&&)` (line 191): members default-initialized
(empty `m_handler`), then `swap(other)`. -/
def Event.moveCtor (s : State) (dst src : Nat) : State :=
  Event.swap { s with m_handler := updMap s.m_handler dst [] } dst src

/-- `Event::operator=(Event&&)` (line 197): `swap(other); return *this;`. -/
def Event.moveAssign (s : State) (dst src : Nat) : State :=
  Event.swap s dst src

/-- `Handler::~Handler()` (line 120): `reset()`; afterwards the object is
gone, which we model by emptying its function slot. -/
def Handler.dtor (s : State) (h : Nat) : State :=
  let s1 := Handler.reset s h
  { s1 with m_function := updMap s1.m_function h none }

/-- `Event::~Event()` (line 204): `reset()`. -/
def Event.dtor (s : State) (e : Nat) : State :=
  Event.reset s e

/-- Exceptions that can escape `invoke`: `std::bad_function_call` from an
empty `std::function`, or whatever a reaction itself raises. -/
inductive Exc where
  | badFunctionCall : Exc
  | err : Nat → Exc
deriving DecidableEq

/-- `Handler::invoke` (line 139): `m_function(args...)`.  Calling an empty
`std::function` raises `std::bad_function_call`; otherwise the wrapped
reaction runs, with outcome given by the reaction semantics `ρ` (the
argument payload is folded into `ρ`). -/
def Handler.invoke (ρ : Nat → Except Exc Unit) (s : State) (h : Nat) : Except Exc Unit :=
  match s.m_function h with
  | none => Except.error Exc.badFunctionCall
  | some r => ρ r

/-- Loop body of `Event::invoke`: call `h->invoke(args...)` on each listed
handler in order; an exception aborts the loop and propagates.  Returns
the handlers whose `invoke` was entered (in call order) together with the
outcome. -/
def invokeLoop (ρ : Nat → Except Exc Unit) (s : State) : List Nat → List Nat × Except Exc Unit
  | [] => ([], Except.ok ())
  | h :: hs =>
    match Handler.invoke ρ s h with
    | Except.error x => ([h], Except.error x)
    | Except.ok _ =>
      let rest := invokeLoop ρ s hs
      (h :: rest.1, rest.2)

/-- `Event::invoke` (line 210): `for (auto h : m_handler) h->invoke(args...)`.
The method is `const`: it only reads `m_handler` and returns no state. -/
def Event.invoke (ρ : Nat → Except Exc Unit) (s : State) (e : Nat) : List Nat × Except Exc Unit :=
  invokeLoop ρ s (s.m_handler e)

/-- Mirrored-subscription invariant: handler `h` lists event `e` exactly as
often as event `e` lists handler `h`. -/
def inv (s : State) : Prop :=
  ∀ h e : Nat, (s.m_subscribedTo h).count e = (s.m_handler e).count h

/-- One public operation of the library, named by the object identities it
acts on. -/
inductive Op where
  | newHandler : Nat → Nat → Op
  | newEvent : Nat → Op
  | subscribeOp : Nat → Nat → Op
  | unsubscribeOp : Nat → Nat → Op
  | resetHandlerOp : Nat → Op
  | resetEventOp : Nat → Op
  | swapHandlersOp : Nat → Nat → Op
  | swapEventsOp : Nat → Nat → Op
  | moveCtorHandlerOp : Nat → Nat → Op
  | moveAssignHandlerOp : Nat → Nat → Op
  | moveCtorEventOp : Nat → Nat → Op
  | moveAssignEventOp : Nat → Nat → Op
  | dtorHandlerOp : Nat → Op
  | dtorEventOp : Nat → Op

/-- Semantics of one public operation. -/
def applyOp (s : State) : Op → State
  | Op.newHandler h r => Handler.ctor s h r
  | Op.newEvent e => Event.ctor s e
  | Op.subscribeOp e h => Event.subscribe s e h
  | Op.unsubscribeOp e h => Event.unsubscribe s e h
  | Op.resetHandlerOp h => Handler.reset s h
  | Op.resetEventOp e => Event.reset s e
  | Op.swapHandlersOp h1 h2 => Handler.swap s h1 h2
  | Op.swapEventsOp e1 e2 => Event.swap s e1 e2
  | Op.moveCtorHandlerOp d src => Handler.moveCtor s d src
  | Op.moveAssignHandlerOp d src => Handler.moveAssign s d src
  | Op.moveCtorEventOp d src => Event.moveCtor s d src
  | Op.moveAssignEventOp d src => Event.moveAssign s d src
  | Op.dtorHandlerOp h => Handler.dtor s h
  | Op.dtorEventOp e => Event.dtor s e

/-- Side conditions under which an operation models a legal C++ call on
distinct live objects: constructors (including move construction) target
fresh storage, and `swap`/move operations act on two distinct objects
(ruling out self-swap and self-move-assignment). -/
def valid (s : State) : Op → Bool
  | Op.newHandler h _ => s.m_subscribedTo h == []
  | Op.newEvent e => s.m_handler e == []
  | Op.swapHandlersOp h1 h2 => h1 != h2
  | Op.swapEventsOp e1 e2 => e1 != e2
  | Op.moveCtorHandlerOp d src => d != src && s.m_subscribedTo d == []
  | Op.moveAssignHandlerOp d src => d != src
  | Op.moveCtorEventOp d src => d != src && s.m_handler d == []
  | Op.moveAssignEventOp d src => d != src
  | _ => true

/-- Run a sequence of public operations. -/
def execOps (s : State) (ops : List Op) : State :=
  ops.foldl applyOp s

/-- Every operation of the sequence satisfies its side condition at the
state where it runs. -/
def validSeq (s : State) : List Op → Bool
  | [] => true
  | op :: ops => valid s op && validSeq (applyOp s op) ops

instance : DecidableEq (Except Exc Unit) := fun a b =>
  match a, b with
  | Except.ok x, Except.ok y => isTrue (by cases x; cases y; rfl)
  | Except.error x, Except.error y =>
    if h : x = y then isTrue (by rw [h]) else isFalse (by simp [h])
  | Except.ok _, Except.error _ => isFalse (by simp)
  | Except.error _, Except.ok _ => isFalse (by simp)

/-- Reachable example state used to instantiate theorems with hypotheses:
three handlers (ids 0,1,2 with reactions 100,101,102) and two events
(ids 5,6); event 5's subscribers are `[0, 1, 2]`, event 6's are `[0]`. -/
def exampleOps : List Op :=
  [Op.newHandler 0 100, Op.newHandler 1 101, Op.newHandler 2 102,
   Op.newEvent 5, Op.newEvent 6, Op.subscribeOp 5 0, Op.subscribeOp 5 1,
   Op.subscribeOp 6 0, Op.subscribeOp 5 2]

def exampleState : State :=
  execOps initState exampleOps

/-- Operation sequence refuting claim C1 as stated: construct a handler
and an event, subscribe, then call `h.swap(h)` (a legal public call). -/
def c1CexOps : List Op :=
  [Op.newHandler 0 0, Op.newEvent 0, Op.subscribeOp 0 0, Op.swapHandlersOp 0 0]

/-- Concrete run for C1: the amended invariant theorem applied to a
sequence exercising construction, duplicate subscription, unsubscription,
distinct-object swap, reset, move assignment and destruction. -/
def c1WitnessOps : List Op :=
  [Op.newHandler 0 100, Op.newHandler 1 101, Op.newEvent 0, Op.subscribeOp 0 0,
   Op.subscribeOp 0 1, Op.subscribeOp 0 0, Op.unsubscribeOp 0 0, Op.swapHandlersOp 0 1,
   Op.resetHandlerOp 0, Op.moveAssignHandlerOp 0 1, Op.moveCtorHandlerOp 2 0,
   Op.dtorHandlerOp 2, Op.dtorEventOp 0]

/-- Operations building the C8 state: handler 0 (reaction 5) subscribed
once to event 0. -/
def c8Ops : List Op :=
  [Op.newHandler 0 5, Op.newEvent 0, Op.subscribeOp 0 0]

/-- State for C8: handler 0 (reaction 5) subscribed once to event 0. -/
def c8State : State :=
  execOps initState c8Ops

/-- Reaction semantics for the C7 run: reaction 101 (held by handler 1)
raises, all other reactions succeed. -/
def c7rho : Nat → Except Exc Unit :=
  fun r => if r = 101 then Except.error (Exc.err 3) else Except.ok ()

/-- State refuting claim C2 as stated on move assignment: handler 0 is
subscribed to event 10, handler 1 to event 11. -/
def c2CexState : State :=
  execOps initState
    [Op.newHandler 0 0, Op.newHandler 1 1, Op.newEvent 10, Op.newEvent 11,
     Op.subscribeOp 10 0, Op.subscribeOp 11 1]

/-- State refuting claim C10 as stated: handlers 0 and 1 are both
subscribed to event 5 (subscriber vector `[0, 1]`). -/
def c10CexState : State :=
  execOps initState
    [Op.newHandler 0 0, Op.newHandler 1 1, Op.newEvent 5,
     Op.subscribeOp 5 0, Op.subscribeOp 5 1]

theorem updMap_same {α : Type} (f : Nat → α) (a : Nat) (v : α) : updMap f a v a = v := by
  simp [updMap]

theorem updMap_ne {α : Type} (f : Nat → α) {a x : Nat} (v : α) (h : x ≠ a) :
    updMap f a v x = f x := by
  simp [updMap, h]

theorem updMap_self {α : Type} (f : Nat → α) (a : Nat) : updMap f a (f a) = f := by
  funext x
  by_cases h : x = a
  · subst h; simp [updMap]
  · simp [updMap, h]

theorem eraseFold_nil (f : Nat → List Nat) (b : Nat) : eraseFold f b [] = f := rfl

theorem eraseFold_cons (f : Nat → List Nat) (b y : Nat) (l : List Nat) :
    eraseFold f b (y :: l) = eraseFold (updMap f y ((f y).erase b)) b l := rfl

theorem pushFold_nil (f : Nat → List Nat) (b : Nat) : pushFold f b [] = f := rfl

theorem pushFold_cons (f : Nat → List Nat) (b y : Nat) (l : List Nat) :
    pushFold f b (y :: l) = pushFold (updMap f y (f y ++ [b])) b l := rfl

/-- The erase loop, projected at one key: the list at key `x` undergoes
one first-occurrence erase per occurrence of `x` in the iterated list. -/
theorem eraseFold_apply (b : Nat) :
    ∀ (l : List Nat) (f : Nat → List Nat) (x : Nat),
      eraseFold f b l x = (fun t => t.erase b)^[l.count x] (f x) := by
  intro l
  induction l with
  | nil => intro f x; rfl
  | cons y l ih =>
    intro f x
    rw [eraseFold_cons, ih]
    by_cases hxy : x = y
    · subst hxy
      rw [updMap_same, List.count_cons_self, Function.iterate_succ_apply]
    · rw [updMap_ne _ _ hxy, List.count_cons_of_ne hxy]

/-- The push loop, projected at one key: the list at key `x` gains one
appended copy of `b` per occurrence of `x` in the iterated list. -/
theorem pushFold_apply (b : Nat) :
    ∀ (l : List Nat) (f : Nat → List Nat) (x : Nat),
      pushFold f b l x = f x ++ List.replicate (l.count x) b := by
  intro l
  induction l with
  | nil => intro f x; simp [pushFold_nil]
  | cons y l ih =>
    intro f x
    rw [pushFold_cons, ih]
    by_cases hxy : x = y
    · subst hxy
      rw [updMap_same, List.count_cons_self, List.replicate_succ, List.append_assoc]
      rfl
    · rw [updMap_ne _ _ hxy, List.count_cons_of_ne hxy]

theorem count_iterate_erase_self (b : Nat) :
    ∀ (n : Nat) (t : List Nat), ((fun t => t.erase b)^[n] t).count b = t.count b - n := by
  intro n
  induction n with
  | zero => intro t; simp
  | succ n ih =>
    intro t
    rw [Function.iterate_succ_apply, ih, List.count_erase_self, Nat.sub_sub, Nat.add_comm]

theorem count_iterate_erase_ne {a b : Nat} (h : a ≠ b) :
    ∀ (n : Nat) (t : List Nat), ((fun t => t.erase b)^[n] t).count a = t.count a := by
  intro n
  induction n with
  | zero => intro t; simp
  | succ n ih =>
    intro t
    rw [Function.iterate_succ_apply, ih, List.count_erase_of_ne h]

theorem filter_ne_erase (b : Nat) :
    ∀ t : List Nat, (t.erase b).filter (fun x => x != b) = t.filter (fun x => x != b) := by
  intro t
  induction t with
  | nil => rfl
  | cons c t ih =>
    by_cases hcb : c = b
    · subst hcb
      rw [List.erase_cons_head]
      simp
    · rw [List.erase_cons_tail (by simpa using hcb)]
      simp only [List.filter_cons]
      rw [ih]

theorem filter_ne_of_count_eq_zero {b : Nat} {t : List Nat} (h : t.count b = 0) :
    t.filter (fun x => x != b) = t := by
  rw [List.filter_eq_self]
  intro a ha
  have : b ∉ t := List.count_eq_zero.mp h
  simp only [bne_iff_ne, ne_eq]
  exact fun hab => this (hab ▸ ha)

/-- Erasing the first occurrence as many times as (an upper bound on) the
multiplicity removes every occurrence, preserving the rest in order. -/
theorem iterate_erase_eq_filter (b : Nat) :
    ∀ (n : Nat) (t : List Nat), t.count b ≤ n →
      (fun t => t.erase b)^[n] t = t.filter (fun x => x != b) := by
  intro n
  induction n with
  | zero =>
    intro t ht
    rw [Function.iterate_zero_apply, filter_ne_of_count_eq_zero (Nat.le_zero.mp ht)]
  | succ n ih =>
    intro t ht
    rw [Function.iterate_succ_apply]
    by_cases hb : b ∈ t
    · have hc : (t.erase b).count b ≤ n := by
        rw [List.count_erase_self]
        omega
      rw [ih (t.erase b) hc, filter_ne_erase]
    · rw [List.erase_of_not_mem hb,
        ih t (Nat.le_trans (Nat.le_of_eq (List.count_eq_zero.mpr hb)) (Nat.zero_le n))]

theorem count_filter_self_eq_zero (b : Nat) (t : List Nat) :
    (t.filter (fun x => x != b)).count b = 0 := by
  rw [List.count_eq_zero]
  intro hmem
  have := (List.mem_filter.mp hmem).2
  simp at this

theorem count_filter_of_ne {a b : Nat} (h : a ≠ b) (t : List Nat) :
    (t.filter (fun x => x != b)).count a = t.count a :=
  List.count_filter (by simpa using h)

theorem handlerSwap_def (s : State) (h1 h2 : Nat) :
    Handler.swap s h1 h2
      = { m_subscribedTo :=
            updMap (updMap s.m_subscribedTo h1 (s.m_subscribedTo h2)) h2 (s.m_subscribedTo h1)
          m_handler :=
            pushFold
              (pushFold (eraseFold (eraseFold s.m_handler h1 (s.m_subscribedTo h1)) h2
                  (s.m_subscribedTo h2)) h1
                (updMap (updMap s.m_subscribedTo h1 (s.m_subscribedTo h2)) h2
                  (s.m_subscribedTo h1) h1)) h2
              (updMap (updMap s.m_subscribedTo h1 (s.m_subscribedTo h2)) h2
                (s.m_subscribedTo h1) h2)
          m_function :=
            updMap (updMap s.m_function h1 (s.m_function h2)) h2 (s.m_function h1) } := rfl

theorem eventSwap_def (s : State) (e1 e2 : Nat) :
    Event.swap s e1 e2
      = { m_handler :=
            updMap (updMap s.m_handler e1 (s.m_handler e2)) e2 (s.m_handler e1)
          m_subscribedTo :=
            pushFold
              (pushFold (eraseFold (eraseFold s.m_subscribedTo e1 (s.m_handler e1)) e2
                  (s.m_handler e2)) e1
                (updMap (updMap s.m_handler e1 (s.m_handler e2)) e2 (s.m_handler e1) e1)) e2
              (updMap (updMap s.m_handler e1 (s.m_handler e2)) e2 (s.m_handler e1) e2)
          m_function := s.m_function } := rfl

/-- After `Handler::swap` of two distinct handlers from a mirrored state,
each event's subscriber vector is its old vector with every entry for
either handler removed, followed by `h1`'s re-pushed entries, followed by
`h2`'s re-pushed entries. -/
theorem handlerSwap_m_handler_eq (s : State) {h1 h2 : Nat} (hne : h1 ≠ h2) (hinv : inv s)
    (e : Nat) :
    (Handler.swap s h1 h2).m_handler e
      = ((s.m_handler e).filter (fun x => x != h1)).filter (fun x => x != h2)
        ++ List.replicate ((s.m_subscribedTo h2).count e) h1
        ++ List.replicate ((s.m_subscribedTo h1).count e) h2 := by
  rw [handlerSwap_def]
  simp only
  rw [updMap_ne _ _ hne, updMap_same, updMap_same]
  rw [pushFold_apply, pushFold_apply, eraseFold_apply, eraseFold_apply]
  rw [iterate_erase_eq_filter h1 _ _ (Nat.le_of_eq (hinv h1 e).symm)]
  rw [iterate_erase_eq_filter h2 _ _ (by
    rw [count_filter_of_ne hne.symm]
    exact Nat.le_of_eq (hinv h2 e).symm)]

/-- After `Event::swap` of two distinct events from a mirrored state, each
handler's subscription vector is its old vector with every entry for
either event removed, followed by `e1`'s re-pushed entries, followed by
`e2`'s re-pushed entries. -/
theorem eventSwap_m_subscribedTo_eq (s : State) {e1 e2 : Nat} (hne : e1 ≠ e2) (hinv : inv s)
    (h : Nat) :
    (Event.swap s e1 e2).m_subscribedTo h
      = ((s.m_subscribedTo h).filter (fun x => x != e1)).filter (fun x => x != e2)
        ++ List.replicate ((s.m_handler e2).count h) e1
        ++ List.replicate ((s.m_handler e1).count h) e2 := by
  rw [eventSwap_def]
  simp only
  rw [updMap_ne _ _ hne, updMap_same, updMap_same]
  rw [pushFold_apply, pushFold_apply, eraseFold_apply, eraseFold_apply]
  rw [iterate_erase_eq_filter e1 _ _ (Nat.le_of_eq (hinv h e1))]
  rw [iterate_erase_eq_filter e2 _ _ (by
    rw [count_filter_of_ne hne.symm]
    exact Nat.le_of_eq (hinv h e2))]

theorem handlerSwap_m_subscribedTo_eq (s : State) (h1 h2 : Nat) :
    (Handler.swap s h1 h2).m_subscribedTo
      = updMap (updMap s.m_subscribedTo h1 (s.m_subscribedTo h2)) h2 (s.m_subscribedTo h1) := rfl

theorem handlerSwap_m_function_eq (s : State) (h1 h2 : Nat) :
    (Handler.swap s h1 h2).m_function
      = updMap (updMap s.m_function h1 (s.m_function h2)) h2 (s.m_function h1) := rfl

theorem eventSwap_m_handler_eq (s : State) (e1 e2 : Nat) :
    (Event.swap s e1 e2).m_handler
      = updMap (updMap s.m_handler e1 (s.m_handler e2)) e2 (s.m_handler e1) := rfl

theorem eventSwap_m_function_eq (s : State) (e1 e2 : Nat) :
    (Event.swap s e1 e2).m_function = s.m_function := rfl

theorem inv_initState : inv initState := fun _ _ => rfl

theorem inv_subscribe {s : State} (hinv : inv s) (e h : Nat) : inv (Event.subscribe s e h) := by
  intro h' e'
  show (updMap s.m_subscribedTo h (s.m_subscribedTo h ++ [e]) h').count e'
      = (updMap s.m_handler e (s.m_handler e ++ [h]) e').count h'
  by_cases hh : h' = h
  · by_cases he : e' = e
    · rw [hh, he, updMap_same, updMap_same, List.count_append, List.count_append,
        hinv h e, List.count_singleton_self, List.count_singleton_self]
    · rw [hh, updMap_same, updMap_ne _ _ he, List.count_append, hinv h e',
        List.count_singleton]
      simp [Ne.symm he]
  · by_cases he : e' = e
    · rw [he, updMap_same, updMap_ne _ _ hh, List.count_append, hinv h' e,
        List.count_singleton]
      simp [Ne.symm hh]
    · rw [updMap_ne _ _ hh, updMap_ne _ _ he]
      exact hinv h' e'

theorem inv_unsubscribe {s : State} (hinv : inv s) (e h : Nat) : inv (Event.unsubscribe s e h) := by
  unfold Event.unsubscribe
  by_cases hmem : h ∈ s.m_handler e
  · rw [if_pos hmem]
    intro h' e'
    show (updMap s.m_subscribedTo h ((s.m_subscribedTo h).erase e) h').count e'
        = (updMap s.m_handler e ((s.m_handler e).erase h) e').count h'
    by_cases hh : h' = h
    · by_cases he : e' = e
      · rw [hh, he, updMap_same, updMap_same, List.count_erase_self, List.count_erase_self,
          hinv h e]
      · rw [hh, updMap_same, updMap_ne _ _ he, List.count_erase_of_ne he]
        exact hinv h e'
    · by_cases he : e' = e
      · rw [he, updMap_same, updMap_ne _ _ hh, List.count_erase_of_ne hh]
        exact hinv h' e
      · rw [updMap_ne _ _ hh, updMap_ne _ _ he]
        exact hinv h' e'
  · rw [if_neg hmem]
    exact hinv

theorem inv_handlerReset {s : State} (hinv : inv s) (h : Nat) : inv (Handler.reset s h) := by
  intro h' e
  show (updMap s.m_subscribedTo h [] h').count e
      = (eraseFold s.m_handler h (s.m_subscribedTo h) e).count h'
  rw [eraseFold_apply]
  by_cases hh : h' = h
  · rw [hh, updMap_same, List.count_nil, count_iterate_erase_self, ← hinv h e, Nat.sub_self]
  · rw [updMap_ne _ _ hh, count_iterate_erase_ne hh]
    exact hinv h' e

theorem inv_eventReset {s : State} (hinv : inv s) (e : Nat) : inv (Event.reset s e) := by
  intro h e'
  show (eraseFold s.m_subscribedTo e (s.m_handler e) h).count e'
      = (updMap s.m_handler e [] e').count h
  rw [eraseFold_apply]
  by_cases he : e' = e
  · rw [he, updMap_same, List.count_nil, count_iterate_erase_self, hinv h e, Nat.sub_self]
  · rw [updMap_ne _ _ he, count_iterate_erase_ne he]
    exact hinv h e'

theorem inv_handlerSwap {s : State} (hinv : inv s) {h1 h2 : Nat} (hne : h1 ≠ h2) :
    inv (Handler.swap s h1 h2) := by
  intro h' e
  rw [handlerSwap_m_handler_eq s hne hinv e, handlerSwap_m_subscribedTo_eq,
    List.count_append, List.count_append]
  by_cases hh1 : h' = h1
  · rw [hh1, updMap_ne _ _ hne, updMap_same, count_filter_of_ne hne,
      count_filter_self_eq_zero, List.count_replicate_self, List.count_replicate]
    simp [hne.symm]
  · by_cases hh2 : h' = h2
    · rw [hh2, updMap_same, count_filter_self_eq_zero, List.count_replicate_self,
        List.count_replicate]
      simp [hne]
    · rw [updMap_ne _ _ hh2, updMap_ne _ _ hh1, count_filter_of_ne hh2, count_filter_of_ne hh1,
        List.count_replicate, List.count_replicate]
      simp [Ne.symm hh1, Ne.symm hh2, hinv h' e]

theorem inv_eventSwap {s : State} (hinv : inv s) {e1 e2 : Nat} (hne : e1 ≠ e2) :
    inv (Event.swap s e1 e2) := by
  intro h e'
  rw [eventSwap_m_subscribedTo_eq s hne hinv h, eventSwap_m_handler_eq,
    List.count_append, List.count_append]
  by_cases he1 : e' = e1
  · rw [he1, updMap_ne _ _ hne, updMap_same, count_filter_of_ne hne,
      count_filter_self_eq_zero, List.count_replicate_self, List.count_replicate]
    simp [hne.symm]
  · by_cases he2 : e' = e2
    · rw [he2, updMap_same, count_filter_self_eq_zero, List.count_replicate_self,
        List.count_replicate]
      simp [hne]
    · rw [updMap_ne _ _ he2, updMap_ne _ _ he1, count_filter_of_ne he2, count_filter_of_ne he1,
        List.count_replicate, List.count_replicate]
      simp [Ne.symm he1, Ne.symm he2, hinv h e']

theorem inv_handlerCtor {s : State} (hinv : inv s) (h r : Nat)
    (hfresh : s.m_subscribedTo h = []) : inv (Handler.ctor s h r) := by
  intro h' e
  show (updMap s.m_subscribedTo h [] h').count e = (s.m_handler e).count h'
  rw [← hfresh, updMap_self]
  exact hinv h' e

theorem inv_eventCtor {s : State} (hinv : inv s) (e : Nat)
    (hfresh : s.m_handler e = []) : inv (Event.ctor s e) := by
  intro h e'
  show (s.m_subscribedTo h).count e' = (updMap s.m_handler e [] e').count h
  rw [← hfresh, updMap_self]
  exact hinv h e'

theorem inv_handlerMoveCtor {s : State} (hinv : inv s) {dst src : Nat} (hne : dst ≠ src)
    (hfresh : s.m_subscribedTo dst = []) : inv (Handler.moveCtor s dst src) := by
  unfold Handler.moveCtor
  refine inv_handlerSwap ?_ hne
  intro h' e
  show (updMap s.m_subscribedTo dst [] h').count e = (s.m_handler e).count h'
  rw [← hfresh, updMap_self]
  exact hinv h' e

theorem inv_eventMoveCtor {s : State} (hinv : inv s) {dst src : Nat} (hne : dst ≠ src)
    (hfresh : s.m_handler dst = []) : inv (Event.moveCtor s dst src) := by
  unfold Event.moveCtor
  refine inv_eventSwap ?_ hne
  intro h e'
  show (s.m_subscribedTo h).count e' = (updMap s.m_handler dst [] e').count h
  rw [← hfresh, updMap_self]
  exact hinv h e'

theorem inv_handlerDtor {s : State} (hinv : inv s) (h : Nat) : inv (Handler.dtor s h) :=
  inv_handlerReset hinv h

theorem inv_eventDtor {s : State} (hinv : inv s) (e : Nat) : inv (Event.dtor s e) :=
  inv_eventReset hinv e

theorem inv_applyOp {s : State} (hinv : inv s) {op : Op} (hv : valid s op = true) :
    inv (applyOp s op) := by
  cases op with
  | newHandler h r =>
    exact inv_handlerCtor hinv h r (by simpa [valid] using hv)
  | newEvent e =>
    exact inv_eventCtor hinv e (by simpa [valid] using hv)
  | subscribeOp e h => exact inv_subscribe hinv e h
  | unsubscribeOp e h => exact inv_unsubscribe hinv e h
  | resetHandlerOp h => exact inv_handlerReset hinv h
  | resetEventOp e => exact inv_eventReset hinv e
  | swapHandlersOp h1 h2 =>
    exact inv_handlerSwap hinv (by simpa [valid] using hv)
  | swapEventsOp e1 e2 =>
    exact inv_eventSwap hinv (by simpa [valid] using hv)
  | moveCtorHandlerOp d src =>
    have hv' := by simpa [valid] using hv
    exact inv_handlerMoveCtor hinv hv'.1 hv'.2
  | moveAssignHandlerOp d src =>
    exact inv_handlerSwap hinv (by simpa [valid] using hv)
  | moveCtorEventOp d src =>
    have hv' := by simpa [valid] using hv
    exact inv_eventMoveCtor hinv hv'.1 hv'.2
  | moveAssignEventOp d src =>
    exact inv_eventSwap hinv (by simpa [valid] using hv)
  | dtorHandlerOp h => exact inv_handlerDtor hinv h
  | dtorEventOp e => exact inv_eventDtor hinv e

theorem inv_execOps {ops : List Op} :
    ∀ {s : State}, inv s → validSeq s ops = true → inv (execOps s ops) := by
  induction ops with
  | nil => intro s hinv _; exact hinv
  | cons op ops ih =>
    intro s hinv hv
    rw [validSeq, Bool.and_eq_true] at hv
    exact ih (inv_applyOp hinv hv.1) hv.2

/-- When every listed handler's call succeeds, the invocation loop enters
each one exactly once, in list order, and succeeds. -/
theorem invokeLoop_all_ok (ρ : Nat → Except Exc Unit) (s : State) :
    ∀ l : List Nat, (∀ x ∈ l, Handler.invoke ρ s x = Except.ok ())
      → invokeLoop ρ s l = (l, Except.ok ()) := by
  intro l
  induction l with
  | nil => intro _; rfl
  | cons h hs ih =>
    intro hok
    rw [invokeLoop, hok h (List.mem_cons_self h hs), ih (fun x hx => hok x (List.mem_cons_of_mem h hx))]

/-- When every handler before `hf` succeeds and `hf`'s call raises, the
invocation loop enters exactly the prefix and `hf`, then aborts with the
very exception `hf` raised; the handlers after `hf` are never entered. -/
theorem invokeLoop_prefix_error (ρ : Nat → Except Exc Unit) (s : State) (x : Exc) :
    ∀ (pre : List Nat) (hf : Nat) (post : List Nat),
      (∀ y ∈ pre, Handler.invoke ρ s y = Except.ok ())
      → Handler.invoke ρ s hf = Except.error x
      → invokeLoop ρ s (pre ++ hf :: post) = (pre ++ [hf], Except.error x) := by
  intro pre
  induction pre with
  | nil =>
    intro hf post _ herr
    rw [List.nil_append, invokeLoop, herr, List.nil_append]
  | cons y pre ih =>
    intro hf post hpre herr
    rw [List.cons_append, invokeLoop, hpre y (List.mem_cons_self y pre),
      ih hf post (fun z hz => hpre z (List.mem_cons_of_mem y hz)) herr, List.cons_append]

/-- Resetting a handler with no subscriptions leaves the state untouched. -/
theorem handlerReset_of_empty {s : State} {h : Nat} (hs : s.m_subscribedTo h = []) :
    Handler.reset s h = s := by
  have hu : updMap s.m_subscribedTo h [] = s.m_subscribedTo := by
    rw [← hs]
    exact updMap_self _ _
  unfold Handler.reset
  rw [hs, eraseFold_nil, hu]

/-- Resetting an event with no subscribers leaves the state untouched. -/
theorem eventReset_of_empty {s : State} {e : Nat} (hs : s.m_handler e = []) :
    Event.reset s e = s := by
  have hu : updMap s.m_handler e [] = s.m_handler := by
    rw [← hs]
    exact updMap_self _ _
  unfold Event.reset
  rw [hs, eraseFold_nil, hu]

theorem exampleState_inv : inv exampleState :=
  inv_execOps inv_initState (by decide)

/-- Unsubscribing a handler that is not in the event's subscriber vector
leaves the state entirely unchanged. -/
theorem unsubscribe_of_not_mem {s : State} {e h : Nat} (hmem : h ∉ s.m_handler e) :
    Event.unsubscribe s e h = s := by
  unfold Event.unsubscribe
  rw [if_neg hmem]

/-- C1, counterexample: the mirrored-subscription invariant does NOT hold
after every public operation.  After constructing handler 0 and event 0,
subscribing, and self-swapping the handler, event 0's subscriber vector
holds handler 0 twice while the handler's subscription vector holds
event 0 once. -/
theorem c1_mirrored_invariant_counterexample :
    ¬ inv (execOps initState c1CexOps) :=
  fun hinv => absurd (hinv 0 0) (by decide)

/-- C1, amended: after every public operation in which swap and
move-assignment act on two distinct objects and constructors (including
move construction) target fresh storage, every handler `h` lists every
event `e` exactly as often as `e` lists `h` — the mirrored-subscription
invariant holds at every quiescent point of every such operation
sequence. -/
theorem c1_mirrored_invariant (s : State) (ops : List Op) (hinv : inv s)
    (hv : validSeq s ops = true) : inv (execOps s ops) :=
  inv_execOps hinv hv

theorem c1_mirrored_invariant_witness :
    inv initState ∧ validSeq initState c1WitnessOps = true
      ∧ inv (execOps initState c1WitnessOps) :=
  ⟨inv_initState, by decide,
    c1_mirrored_invariant initState c1WitnessOps inv_initState (by decide)⟩

/-- C3: `Event::unsubscribe` removes exactly the first occurrence (by
identity) of the handler from the event's subscriber vector and the first
occurrence of the event from that handler's subscription vector, touching
no other object's vectors and no reaction; when the handler is not
currently subscribed — including a second unsubscribe after the only
occurrence was removed — the call leaves the state entirely unchanged. -/
theorem c3_unsubscribe_first_occurrence (s : State) (e h : Nat) :
    (h ∈ s.m_handler e →
      (Event.unsubscribe s e h).m_handler e = (s.m_handler e).erase h
      ∧ (Event.unsubscribe s e h).m_subscribedTo h = (s.m_subscribedTo h).erase e
      ∧ (∀ e', e' ≠ e → (Event.unsubscribe s e h).m_handler e' = s.m_handler e')
      ∧ (∀ h', h' ≠ h → (Event.unsubscribe s e h).m_subscribedTo h' = s.m_subscribedTo h')
      ∧ (Event.unsubscribe s e h).m_function = s.m_function)
    ∧ (h ∉ s.m_handler e → Event.unsubscribe s e h = s)
    ∧ ((s.m_handler e).count h = 1 →
        Event.unsubscribe (Event.unsubscribe s e h) e h = Event.unsubscribe s e h) := by
  refine ⟨?_, ?_, ?_⟩
  · intro hmem
    unfold Event.unsubscribe
    rw [if_pos hmem]
    exact ⟨updMap_same _ _ _, updMap_same _ _ _,
      fun e' he' => updMap_ne _ _ he', fun h' hh' => updMap_ne _ _ hh', rfl⟩
  · exact unsubscribe_of_not_mem
  · intro hcount
    have hmem : h ∈ s.m_handler e := List.count_pos_iff.mp (by omega)
    have hout : h ∉ (Event.unsubscribe s e h).m_handler e := by
      unfold Event.unsubscribe
      rw [if_pos hmem]
      show h ∉ updMap s.m_handler e ((s.m_handler e).erase h) e
      rw [updMap_same, ← List.count_eq_zero, List.count_erase_self, hcount]
    exact unsubscribe_of_not_mem hout

/-- C8 fails on the code: self-swap is NOT a no-op.  With handler 0
subscribed once to event 0, `h.swap(h)` removes the handler from the
event once but then re-pushes it twice (both re-subscribe loops of
`Handler::swap` run over the same object), so the event's subscriber
vector ends `[0, 0]` while the handler's subscription vector stays `[0]`,
breaking the mirrored-subscription invariant; `Event::swap` on itself
corrupts the handler's subscription vector symmetrically.  (The reaction
member itself is unchanged, as the claim says.) -/
theorem c8_self_swap_duplicates :
    c8State.m_handler 0 = [0] ∧ c8State.m_subscribedTo 0 = [0]
    ∧ (Handler.swap c8State 0 0).m_handler 0 = [0, 0]
    ∧ (Handler.swap c8State 0 0).m_subscribedTo 0 = [0]
    ∧ (Handler.swap c8State 0 0).m_function 0 = c8State.m_function 0
    ∧ (Event.swap c8State 0 0).m_subscribedTo 0 = [0, 0]
    ∧ (Event.swap c8State 0 0).m_handler 0 = [0]
    ∧ inv c8State
    ∧ ¬ inv (Handler.swap c8State 0 0) := by
  refine ⟨by decide, by decide, by decide, by decide, by decide, by decide, by decide,
    ?_, ?_⟩
  · show inv (execOps initState c8Ops)
    exact inv_execOps inv_initState (by decide)
  · intro hinv
    exact absurd (hinv 0 0) (by decide)

/-- C9: after move-constructing a new handler (at fresh storage `dst`)
from handler `src`, the moved-from `src` holds the empty
`std::function` — invoking it raises `std::bad_function_call` rather than
silently doing nothing — even though `src` has no subscriptions left. -/
theorem c9_moved_from_handler_raises (ρ : Nat → Except Exc Unit) (s : State)
    (dst src : Nat) (_hne : dst ≠ src) :
    (Handler.moveCtor s dst src).m_function src = none
    ∧ Handler.invoke ρ (Handler.moveCtor s dst src) src = Except.error Exc.badFunctionCall
    ∧ (Handler.moveCtor s dst src).m_subscribedTo src = [] := by
  have hfn : (Handler.moveCtor s dst src).m_function src = none := by
    unfold Handler.moveCtor
    rw [handlerSwap_m_function_eq, updMap_same]
    show updMap s.m_function dst none dst = none
    exact updMap_same _ _ _
  have hsub : (Handler.moveCtor s dst src).m_subscribedTo src = [] := by
    unfold Handler.moveCtor
    rw [handlerSwap_m_subscribedTo_eq, updMap_same]
    show updMap s.m_subscribedTo dst [] dst = []
    exact updMap_same _ _ _
  refine ⟨hfn, ?_, hsub⟩
  unfold Handler.invoke
  rw [hfn]

theorem c9_moved_from_handler_raises_witness :
    (0 : Nat) ≠ 1
    ∧ Handler.invoke (fun _ => Except.ok ()) (Handler.moveCtor exampleState 3 1) 1
        = Except.error Exc.badFunctionCall :=
  ⟨by decide,
    (c9_moved_from_handler_raises (fun _ => Except.ok ()) exampleState 3 1 (by decide)).2.1⟩

/-- After `Event::subscribe`, the event's subscriber vector is its old
vector with the handler appended. -/
theorem subscribe_m_handler_self (s : State) (e h : Nat) :
    (Event.subscribe s e h).m_handler e = s.m_handler e ++ [h] := by
  show updMap s.m_handler e (s.m_handler e ++ [h]) e = _
  exact updMap_same _ _ _

/-- After `Event::subscribe`, the handler's subscription vector is its old
vector with the event appended. -/
theorem subscribe_m_subscribedTo_self (s : State) (e h : Nat) :
    (Event.subscribe s e h).m_subscribedTo h = s.m_subscribedTo h ++ [e] := by
  show updMap s.m_subscribedTo h (s.m_subscribedTo h ++ [e]) h = _
  exact updMap_same _ _ _

/-- Unsubscribing a subscribed handler erases its first occurrence from
the event's subscriber vector. -/
theorem unsubscribe_m_handler_of_mem {s : State} {e h : Nat} (hmem : h ∈ s.m_handler e) :
    (Event.unsubscribe s e h).m_handler e = (s.m_handler e).erase h := by
  unfold Event.unsubscribe
  rw [if_pos hmem]
  exact updMap_same _ _ _

/-- C4: `Event::invoke` enters `Handler::invoke` once for each entry of
the subscriber vector, in vector (= ascending registration) order,
skipping none; and unsubscribing a handler then re-subscribing it places
its entry at the end of the vector, hence last in invocation order. -/
theorem c4_invocation_order (ρ : Nat → Except Exc Unit) (s : State) (e h : Nat)
    (hok : ∀ x ∈ s.m_handler e, Handler.invoke ρ s x = Except.ok ()) :
    Event.invoke ρ s e = (s.m_handler e, Except.ok ())
    ∧ (Event.subscribe (Event.unsubscribe s e h) e h).m_handler e
        = (s.m_handler e).erase h ++ [h] := by
  constructor
  · exact invokeLoop_all_ok ρ s _ hok
  · rw [subscribe_m_handler_self]
    by_cases hmem : h ∈ s.m_handler e
    · rw [unsubscribe_m_handler_of_mem hmem]
    · rw [unsubscribe_of_not_mem hmem, List.erase_of_not_mem hmem]

theorem c4_invocation_order_witness :
    (∀ x ∈ exampleState.m_handler 5,
      Handler.invoke (fun _ => Except.ok ()) exampleState x = Except.ok ())
    ∧ Event.invoke (fun _ => Except.ok ()) exampleState 5
        = (exampleState.m_handler 5, Except.ok ()) :=
  ⟨by decide,
    (c4_invocation_order (fun _ => Except.ok ()) exampleState 5 1 (by decide)).1⟩

/-- C6: subscribing the same handler to the same event twice appends two
independent entries on both sides; with all reactions succeeding, one
invocation then enters that handler once per entry (two more times than
before); each unsubscribe removes exactly one of the two entries, so both
entries need separate unsubscribe calls. -/
theorem c6_double_subscription (ρ : Nat → Except Exc Unit) (s : State) (e h : Nat)
    (hok : ∀ x ∈ (Event.subscribe (Event.subscribe s e h) e h).m_handler e,
      Handler.invoke ρ (Event.subscribe (Event.subscribe s e h) e h) x = Except.ok ()) :
    (Event.subscribe (Event.subscribe s e h) e h).m_handler e = s.m_handler e ++ [h, h]
    ∧ (Event.subscribe (Event.subscribe s e h) e h).m_subscribedTo h
        = s.m_subscribedTo h ++ [e, e]
    ∧ ((Event.invoke ρ (Event.subscribe (Event.subscribe s e h) e h) e).1).count h
        = (s.m_handler e).count h + 2
    ∧ ((Event.unsubscribe (Event.subscribe (Event.subscribe s e h) e h) e h).m_handler e).count h
        = (s.m_handler e).count h + 1
    ∧ ((Event.unsubscribe (Event.unsubscribe (Event.subscribe (Event.subscribe s e h) e h) e h)
          e h).m_handler e).count h
        = (s.m_handler e).count h := by
  have hh2 : (Event.subscribe (Event.subscribe s e h) e h).m_handler e
      = s.m_handler e ++ [h, h] := by
    rw [subscribe_m_handler_self, subscribe_m_handler_self, List.append_assoc]
    rfl
  have hs2 : (Event.subscribe (Event.subscribe s e h) e h).m_subscribedTo h
      = s.m_subscribedTo h ++ [e, e] := by
    rw [subscribe_m_subscribedTo_self, subscribe_m_subscribedTo_self, List.append_assoc]
    rfl
  have hmem1 : h ∈ (Event.subscribe (Event.subscribe s e h) e h).m_handler e := by
    rw [hh2]
    simp
  have hcnt1 : ((Event.unsubscribe (Event.subscribe (Event.subscribe s e h) e h) e h).m_handler
      e).count h = (s.m_handler e).count h + 1 := by
    rw [unsubscribe_m_handler_of_mem hmem1, List.count_erase_self, hh2, List.count_append]
    simp
  have hmem2 : h ∈ (Event.unsubscribe (Event.subscribe (Event.subscribe s e h) e h) e
      h).m_handler e :=
    List.count_pos_iff.mp (by omega)
  refine ⟨hh2, hs2, ?_, hcnt1, ?_⟩
  · show ((invokeLoop ρ _ ((Event.subscribe (Event.subscribe s e h) e h).m_handler e)).1).count h
        = _
    rw [invokeLoop_all_ok _ _ _ hok, hh2, List.count_append]
    simp
  · rw [unsubscribe_m_handler_of_mem hmem2, List.count_erase_self, hcnt1]
    omega

theorem c6_double_subscription_witness :
    (∀ x ∈ (Event.subscribe (Event.subscribe exampleState 6 2) 6 2).m_handler 6,
      Handler.invoke (fun _ => Except.ok ())
        (Event.subscribe (Event.subscribe exampleState 6 2) 6 2) x = Except.ok ())
    ∧ (Event.subscribe (Event.subscribe exampleState 6 2) 6 2).m_handler 6
        = exampleState.m_handler 6 ++ [2, 2] :=
  ⟨by decide,
    (c6_double_subscription (fun _ => Except.ok ()) exampleState 6 2 (by decide)).1⟩

/-- C7: if the handlers before `hf` in the subscriber vector all succeed
and `hf`'s reaction raises `x`, then `Event::invoke` enters exactly the
preceding handlers and `hf` (each once, in order), the very exception `x`
propagates unmodified to the caller, and the handlers after `hf` are
never entered.  (`Event::invoke` is a `const` member: embedded as a pure
function of the state, it can change no subscriber or subscription
vector.) -/
theorem c7_exception_propagation (ρ : Nat → Except Exc Unit) (s : State) (e : Nat)
    (pre : List Nat) (hf : Nat) (post : List Nat) (x : Exc)
    (hdecomp : s.m_handler e = pre ++ hf :: post)
    (hpre : ∀ y ∈ pre, Handler.invoke ρ s y = Except.ok ())
    (herr : Handler.invoke ρ s hf = Except.error x) :
    Event.invoke ρ s e = (pre ++ [hf], Except.error x) := by
  unfold Event.invoke
  rw [hdecomp]
  exact invokeLoop_prefix_error ρ s x pre hf post hpre herr

theorem c7_exception_propagation_witness :
    exampleState.m_handler 5 = [0] ++ 1 :: [2]
    ∧ (∀ y ∈ [0], Handler.invoke c7rho exampleState y = Except.ok ())
    ∧ Handler.invoke c7rho exampleState 1 = Except.error (Exc.err 3)
    ∧ Event.invoke c7rho exampleState 5 = ([0] ++ [1], Except.error (Exc.err 3)) :=
  ⟨by decide, by decide, by decide,
    c7_exception_propagation c7rho exampleState 5 [0] 1 [2] (Exc.err 3)
      (by decide) (by decide) (by decide)⟩

/-- C2, counterexample: move assignment does NOT leave the moved-from
handler empty.  `h0 = std::move(h1)` is `swap`, so the moved-from handler
1 inherits handler 0's old subscription (event 10) instead of ending with
no subscriptions. -/
theorem c2_move_counterexample :
    c2CexState.m_subscribedTo 0 = [10]
    ∧ c2CexState.m_subscribedTo 1 = [11]
    ∧ (Handler.moveAssign c2CexState 0 1).m_subscribedTo 1 = [10]
    ∧ (Handler.moveAssign c2CexState 0 1).m_subscribedTo 1 ≠ [] := by
  refine ⟨by decide, by decide, by decide, by decide⟩

/-- C2, amended: move CONSTRUCTION (destination at fresh storage) leaves
the moved-from object Empty while the destination inherits the source's
prior subscription set with every partner re-pointed to the destination;
move ASSIGNMENT is swap-based, so the destination inherits the source's
prior set (re-pointed) while the moved-from source receives the
destination's prior set — hence ends Empty exactly when the destination
was Empty.  Symmetrically for events. -/
theorem c2_move_semantics (s : State) (hd hs ed es : Nat) (hinv : inv s)
    (hneH : hd ≠ hs) (hneE : ed ≠ es) :
    ((Handler.moveAssign s hd hs).m_subscribedTo hd = s.m_subscribedTo hs
      ∧ (Handler.moveAssign s hd hs).m_subscribedTo hs = s.m_subscribedTo hd
      ∧ (∀ e, ((Handler.moveAssign s hd hs).m_handler e).count hd
            = (s.m_subscribedTo hs).count e
          ∧ ((Handler.moveAssign s hd hs).m_handler e).count hs
            = (s.m_subscribedTo hd).count e))
    ∧ (s.m_subscribedTo hd = [] →
        (Handler.moveCtor s hd hs).m_subscribedTo hs = []
        ∧ (Handler.moveCtor s hd hs).m_subscribedTo hd = s.m_subscribedTo hs
        ∧ (∀ e, ((Handler.moveCtor s hd hs).m_handler e).count hd
              = (s.m_subscribedTo hs).count e
            ∧ ((Handler.moveCtor s hd hs).m_handler e).count hs = 0))
    ∧ ((Event.moveAssign s ed es).m_handler ed = s.m_handler es
      ∧ (Event.moveAssign s ed es).m_handler es = s.m_handler ed
      ∧ (∀ h, ((Event.moveAssign s ed es).m_subscribedTo h).count ed
            = (s.m_handler es).count h
          ∧ ((Event.moveAssign s ed es).m_subscribedTo h).count es
            = (s.m_handler ed).count h))
    ∧ (s.m_handler ed = [] →
        (Event.moveCtor s ed es).m_handler es = []
        ∧ (Event.moveCtor s ed es).m_handler ed = s.m_handler es
        ∧ (∀ h, ((Event.moveCtor s ed es).m_subscribedTo h).count ed
              = (s.m_handler es).count h
            ∧ ((Event.moveCtor s ed es).m_subscribedTo h).count es = 0)) := by
  have hsubsA : (Handler.moveAssign s hd hs).m_subscribedTo hd = s.m_subscribedTo hs := by
    unfold Handler.moveAssign
    rw [handlerSwap_m_subscribedTo_eq, updMap_ne _ _ hneH, updMap_same]
  have hsubsB : (Handler.moveAssign s hd hs).m_subscribedTo hs = s.m_subscribedTo hd := by
    unfold Handler.moveAssign
    rw [handlerSwap_m_subscribedTo_eq, updMap_same]
  have hiA : inv (Handler.moveAssign s hd hs) := inv_handlerSwap hinv hneH
  have hevA : (Event.moveAssign s ed es).m_handler ed = s.m_handler es := by
    unfold Event.moveAssign
    rw [eventSwap_m_handler_eq, updMap_ne _ _ hneE, updMap_same]
  have hevB : (Event.moveAssign s ed es).m_handler es = s.m_handler ed := by
    unfold Event.moveAssign
    rw [eventSwap_m_handler_eq, updMap_same]
  have hiE : inv (Event.moveAssign s ed es) := inv_eventSwap hinv hneE
  refine ⟨⟨hsubsA, hsubsB, ?_⟩, ?_, ⟨hevA, hevB, ?_⟩, ?_⟩
  · intro e
    constructor
    · rw [← hiA hd e, hsubsA]
    · rw [← hiA hs e, hsubsB]
  · intro hfresh
    have hms : (Handler.moveCtor s hd hs).m_subscribedTo hs = [] := by
      unfold Handler.moveCtor
      rw [handlerSwap_m_subscribedTo_eq, updMap_same]
      show updMap s.m_subscribedTo hd [] hd = []
      exact updMap_same _ _ _
    have hmd : (Handler.moveCtor s hd hs).m_subscribedTo hd = s.m_subscribedTo hs := by
      unfold Handler.moveCtor
      rw [handlerSwap_m_subscribedTo_eq, updMap_ne _ _ hneH, updMap_same]
      show updMap s.m_subscribedTo hd [] hs = _
      exact updMap_ne _ _ (Ne.symm hneH)
    have hinvC : inv { s with m_subscribedTo := updMap s.m_subscribedTo hd [], m_function := updMap s.m_function hd none } := by
      intro h' e
      show (updMap s.m_subscribedTo hd [] h').count e = (s.m_handler e).count h'
      rw [← hfresh, updMap_self]
      exact hinv h' e
    have hiC : inv (Handler.moveCtor s hd hs) := by
      unfold Handler.moveCtor
      exact inv_handlerSwap hinvC hneH
    refine ⟨hms, hmd, ?_⟩
    intro e
    constructor
    · rw [← hiC hd e, hmd]
    · rw [← hiC hs e, hms]
      rfl
  · intro h
    constructor
    · rw [hiE h ed, hevA]
    · rw [hiE h es, hevB]
  · intro hfresh
    have hms : (Event.moveCtor s ed es).m_handler es = [] := by
      unfold Event.moveCtor
      rw [eventSwap_m_handler_eq, updMap_same]
      show updMap s.m_handler ed [] ed = []
      exact updMap_same _ _ _
    have hmd : (Event.moveCtor s ed es).m_handler ed = s.m_handler es := by
      unfold Event.moveCtor
      rw [eventSwap_m_handler_eq, updMap_ne _ _ hneE, updMap_same]
      show updMap s.m_handler ed [] es = _
      exact updMap_ne _ _ (Ne.symm hneE)
    have hinvC : inv { s with m_handler := updMap s.m_handler ed [] } := by
      intro h' e
      show (s.m_subscribedTo h').count e = (updMap s.m_handler ed [] e).count h'
      rw [← hfresh, updMap_self]
      exact hinv h' e
    have hiC : inv (Event.moveCtor s ed es) := by
      unfold Event.moveCtor
      exact inv_eventSwap hinvC hneE
    refine ⟨hms, hmd, ?_⟩
    intro h
    constructor
    · rw [hiC h ed, hmd]
    · rw [hiC h es, hms]
      rfl

theorem c2_move_semantics_witness :
    inv exampleState ∧ (3 : Nat) ≠ 0 ∧ (9 : Nat) ≠ 5
    ∧ (Handler.moveAssign exampleState 3 0).m_subscribedTo 3
        = exampleState.m_subscribedTo 0 :=
  ⟨exampleState_inv, by decide, by decide,
    (c2_move_semantics exampleState 3 0 9 5 exampleState_inv (by decide) (by decide)).1.1⟩

/-- C5: `Handler::reset` severs every relationship of the handler on both
sides (its own vector is cleared and, in a mirrored state, the handler no
longer occurs in any event's subscriber vector); `Event::reset` is
symmetric; a second reset — or a reset of an object with no
relationships — changes nothing. -/
theorem c5_reset_severs_both_sides (s : State) (h e : Nat) (hinv : inv s) :
    (Handler.reset s h).m_subscribedTo h = []
    ∧ (∀ e', ((Handler.reset s h).m_handler e').count h = 0)
    ∧ Handler.reset (Handler.reset s h) h = Handler.reset s h
    ∧ (s.m_subscribedTo h = [] → Handler.reset s h = s)
    ∧ (Event.reset s e).m_handler e = []
    ∧ (∀ h', ((Event.reset s e).m_subscribedTo h').count e = 0)
    ∧ Event.reset (Event.reset s e) e = Event.reset s e
    ∧ (s.m_handler e = [] → Event.reset s e = s) := by
  refine ⟨updMap_same _ _ _, ?_, ?_, fun hs => handlerReset_of_empty hs,
    updMap_same _ _ _, ?_, ?_, fun hs => eventReset_of_empty hs⟩
  · intro e'
    rw [← inv_handlerReset hinv h h e']
    have h0 : (Handler.reset s h).m_subscribedTo h = [] := updMap_same _ _ _
    rw [h0]
    rfl
  · exact handlerReset_of_empty (updMap_same _ _ _)
  · intro h'
    rw [inv_eventReset hinv e h' e]
    have h0 : (Event.reset s e).m_handler e = [] := updMap_same _ _ _
    rw [h0]
    rfl
  · exact eventReset_of_empty (updMap_same _ _ _)

theorem c5_reset_severs_both_sides_witness :
    inv exampleState
    ∧ (Handler.reset exampleState 0).m_subscribedTo 0 = [] :=
  ⟨exampleState_inv, (c5_reset_severs_both_sides exampleState 0 5 exampleState_inv).1⟩

/-- C10, counterexample: after `h0.swap(h1)` where both handlers share
event 5, the re-pointed handler 0 is a subscriber of its partner event 5
but does NOT occupy the last position of the subscriber vector (handler
1's re-pushed entry comes after it). -/
theorem c10_swap_position_counterexample :
    (Handler.swap c10CexState 0 1).m_subscribedTo 0 = [5]
    ∧ (Handler.swap c10CexState 0 1).m_handler 5 = [0, 1]
    ∧ ((Handler.swap c10CexState 0 1).m_handler 5).getLast? ≠ some 0 := by
  refine ⟨by decide, by decide, by decide⟩

/-- C10, amended: `Handler::swap` on two distinct handlers (from a
mirrored state) rebuilds every event's subscriber vector as: the old
vector with all entries of both swapped handlers removed (in original
order), then the receiver's re-pushed entries, then the argument's.  So
each affected handler is re-registered at the end rather than at its
counterpart's original position, and it occupies the very last positions
whenever it is the only one of the two subscribed to that event. -/
theorem c10_swap_appends_at_end (s : State) (h1 h2 : Nat) (hne : h1 ≠ h2) (hinv : inv s)
    (e : Nat) :
    (Handler.swap s h1 h2).m_handler e
      = ((s.m_handler e).filter (fun x => x != h1)).filter (fun x => x != h2)
        ++ List.replicate ((s.m_subscribedTo h2).count e) h1
        ++ List.replicate ((s.m_subscribedTo h1).count e) h2 :=
  handlerSwap_m_handler_eq s hne hinv e

theorem c10_swap_appends_at_end_witness :
    inv exampleState ∧ (0 : Nat) ≠ 1
    ∧ (Handler.swap exampleState 0 1).m_handler 5
        = ((exampleState.m_handler 5).filter (fun x => x != 0)).filter (fun x => x != 1)
          ++ List.replicate ((exampleState.m_subscribedTo 1).count 5) 0
          ++ List.replicate ((exampleState.m_subscribedTo 0).count 5) 1 :=
  ⟨exampleState_inv, by decide,
    c10_swap_appends_at_end exampleState 0 1 (by decide) exampleState_inv 5⟩

end evnt
